import Mathlib

/-
Verification of the CareerSense scoring and aggregation core (src/app.py).

Strings are embedded as lists of characters; the pandas dataframe is a list
of records; Python dict/list operations become the corresponding pure list
functions.  NaN results of pandas aggregations over an empty selection are
embedded as Option.none.
-/

namespace CareerSense

/-- Strings are modelled as lists of characters. -/
abbrev CL := List Char

/-- Conversion from a Lean string literal to the character-list model. -/
def toCL (s : String) : CL := s.toList

/-- Embedding of Python str.lower, applied characterwise (line 87). -/
def lowerCL (s : CL) : CL := s.map Char.toLower

/-- The needle matches at the very start of the haystack. -/
def matchesAt : CL → CL → Bool
  | [], _ => true
  | _ :: _, [] => false
  | a :: as, b :: bs => a == b && matchesAt as bs

/-- Embedding of the Python substring test needle in haystack
(lines 90 and 94): true iff the needle occurs contiguously anywhere. -/
def isSub : CL → CL → Bool
  | n, [] => n.isEmpty
  | n, b :: bs => matchesAt n (b :: bs) || isSub n bs

/-- Embedding of the score loop of lines 86-95: start at 0, add 2 for every
skill entry that is a substring of the lowercased title, then add 1 for
every interest entry that is a substring of the lowercased title. -/
def scoreOf (skills interests : List CL) (title : CL) : Nat :=
  let tl := lowerCL title
  let afterSkills := skills.foldl (fun sc sk => if isSub sk tl then sc + 2 else sc) 0
  interests.foldl (fun sc it => if isSub it tl then sc + 1 else sc) afterSkills

/-- Embedding of the career_scores dict of lines 83-97: one (title, score)
pair per title, in the iteration order of the distinct-title list. -/
def careerScores (skills interests : List CL) (titles : List CL) : List (CL × Nat) :=
  titles.map (fun t => (t, scoreOf skills interests t))

/-- Stable descending insertion of a pair into an already descending list:
the new element, which comes earlier in the original order, is placed
before the first element whose score it reaches. -/
def ordIns (a : CL × Nat) : List (CL × Nat) → List (CL × Nat)
  | [] => [a]
  | b :: bs => if b.2 ≤ a.2 then a :: b :: bs else b :: ordIns a bs

/-- Embedding of line 99, sorted(career_scores.items(), key score,
reverse): Python timsort is stable and reverse keeps stability, so the
result is the stable descending sort computed here by insertion. -/
def sortDesc : List (CL × Nat) → List (CL × Nat)
  | [] => []
  | a :: as => ordIns a (sortDesc as)

/-- Embedding of line 100, sorted_careers[0][0]: the title of the first
element of the sorted score table, none when the table is empty. -/
def topCareer (skills interests : List CL) (titles : List CL) : Option CL :=
  ((sortDesc (careerScores skills interests titles)).head?).map Prod.fst

/-- Keep the earlier element unless the later one scores strictly higher. -/
def pickEarly (a b : CL × Nat) : CL × Nat := if a.2 < b.2 then b else a

/-- Modelled from the words of the spec, for the refinement claim: a direct
maximum scan over the score table that on ties keeps the earlier entry. -/
def maxScanSpec : List (CL × Nat) → Option (CL × Nat)
  | [] => none
  | a :: l => some (l.foldl pickEarly a)

-- ---------------------------------------------------------------------
-- helper lemmas for the scorer
-- ---------------------------------------------------------------------

lemma foldl_addIf {α : Type} (p : α → Bool) (k : Nat) :
    ∀ (l : List α) (init : Nat),
      l.foldl (fun sc x => if p x then sc + k else sc) init
        = init + k * l.countP p := by
  intro l
  induction l with
  | nil => intro init; simp
  | cons x xs ih =>
      intro init
      rw [List.foldl_cons, ih, List.countP_cons]
      by_cases hx : p x
      · simp only [hx, if_true, Nat.mul_add, Nat.mul_one]
        omega
      · simp [hx]

lemma scoreOf_eq (skills interests : List CL) (title : CL) :
    scoreOf skills interests title
      = 2 * skills.countP (fun sk => isSub sk (lowerCL title))
        + interests.countP (fun it => isSub it (lowerCL title)) := by
  unfold scoreOf
  rw [foldl_addIf, foldl_addIf]
  simp

/-- Claim C1: for every skills list, interests list and title list, the
score table pairs each title with the natural number
2 times the count of skill entries that are substrings of the lowercased
title plus 1 times the count of interest entries that are substrings of
the lowercased title; scores are non-negative by living in Nat. -/
theorem score_table_formula (skills interests titles : List CL) :
    careerScores skills interests titles
      = titles.map (fun t =>
          (t, 2 * skills.countP (fun sk => isSub sk (lowerCL t))
               + interests.countP (fun it => isSub it (lowerCL t)))) := by
  unfold careerScores
  apply List.map_congr_left
  intro t _
  rw [scoreOf_eq]

-- ---------------------------------------------------------------------
-- helper lemmas for the sort / maximum-scan refinement
-- ---------------------------------------------------------------------

lemma pickEarly_assoc (a b c : CL × Nat) :
    pickEarly (pickEarly a b) c = pickEarly a (pickEarly b c) := by
  unfold pickEarly
  split_ifs <;> first | rfl | omega

lemma foldl_pickEarly (l : List (CL × Nat)) :
    ∀ a x, l.foldl pickEarly (pickEarly a x) = pickEarly a (l.foldl pickEarly x) := by
  induction l with
  | nil => intro a x; rfl
  | cons y ys ih =>
      intro a x
      rw [List.foldl_cons, List.foldl_cons, pickEarly_assoc, ih]

lemma head_ordIns (a : CL × Nat) (l : List (CL × Nat)) :
    (ordIns a l).head?
      = some (match l.head? with
              | none => a
              | some b => if b.2 ≤ a.2 then a else b) := by
  cases l with
  | nil => rfl
  | cons b bs =>
      unfold ordIns
      by_cases h : b.2 ≤ a.2
      · rw [if_pos h]
        simp [h]
      · rw [if_neg h]
        simp [h]

lemma pickEarly_eq_if (a b : CL × Nat) :
    pickEarly a b = if b.2 ≤ a.2 then a else b := by
  unfold pickEarly
  split_ifs <;> first | rfl | omega

lemma sortDesc_head_eq_maxScan (l : List (CL × Nat)) :
    (sortDesc l).head? = maxScanSpec l := by
  induction l with
  | nil => rfl
  | cons a as ih =>
      rw [show sortDesc (a :: as) = ordIns a (sortDesc as) from rfl,
          head_ordIns, ih]
      cases as with
      | nil => rfl
      | cons x xs =>
          show some _ = some (List.foldl pickEarly a (x :: xs))
          rw [List.foldl_cons, foldl_pickEarly, pickEarly_eq_if]
          rfl

/-- Claim C2: taking the first element of the stable descending sort of the
score table yields the same recommended title as a direct maximum scan
that keeps the earlier entry on ties. -/
theorem sorted_first_eq_max_scan (skills interests titles : List CL) :
    ((sortDesc (careerScores skills interests titles)).head?).map Prod.fst
      = (maxScanSpec (careerScores skills interests titles)).map Prod.fst := by
  rw [sortDesc_head_eq_maxScan]

-- ---------------------------------------------------------------------
-- all-zero score tables and the empty-string skill
-- ---------------------------------------------------------------------

lemma ordIns_allZero (a : CL × Nat) (l : List (CL × Nat))
    (hl : ∀ p ∈ l, p.2 = 0) : ordIns a l = a :: l := by
  cases l with
  | nil => rfl
  | cons b bs =>
      have hb : b.2 ≤ a.2 := by
        have := hl b (List.mem_cons_self b bs)
        omega
      unfold ordIns
      rw [if_pos hb]

lemma sortDesc_allZero (l : List (CL × Nat))
    (hl : ∀ p ∈ l, p.2 = 0) : sortDesc l = l := by
  induction l with
  | nil => rfl
  | cons a as ih =>
      have has : ∀ p ∈ as, p.2 = 0 := fun p hp => hl p (List.mem_cons_of_mem a hp)
      rw [show sortDesc (a :: as) = ordIns a (sortDesc as) from rfl,
          ih has, ordIns_allZero a as has]

/-- Claim C5: when every title scores 0, the recommendation is the first
title of the original iteration order, and a recommendation is produced
(no error) whenever the title list is non-empty. -/
theorem all_zero_first_title (skills interests titles : List CL)
    (hne : titles ≠ [])
    (h0 : ∀ t ∈ titles, scoreOf skills interests t = 0) :
    topCareer skills interests titles = titles.head?
      ∧ (topCareer skills interests titles).isSome = true := by
  have hz : ∀ p ∈ careerScores skills interests titles, p.2 = 0 := by
    intro p hp
    simp only [careerScores, List.mem_map] at hp
    obtain ⟨t, ht, rfl⟩ := hp
    exact h0 t ht
  unfold topCareer
  rw [sortDesc_allZero _ hz]
  cases titles with
  | nil => exact absurd rfl hne
  | cons t ts => exact ⟨rfl, rfl⟩

/-- Witness for C5 at skills ["x"], interests [], titles ["a", "b"]:
no substring matches, so the fallback returns the first title "a". -/
theorem all_zero_first_title_witness :
    topCareer [toCL "x"] [] [toCL "a", toCL "b"] = [toCL "a", toCL "b"].head?
      ∧ (topCareer [toCL "x"] [] [toCL "a", toCL "b"]).isSome = true :=
  all_zero_first_title [toCL "x"] [] [toCL "a", toCL "b"]
    (by decide) (by decide)

lemma isSub_nil (h : CL) : isSub [] h = true := by
  cases h <;> simp [isSub, matchesAt, List.isEmpty]

/-- Claim C6: with the skill list [""] produced by comma-splitting an empty
field and an empty interest list, every entry of the score table has score
at least 2, because the empty string is a substring of every title. -/
theorem empty_skill_scores_two (titles : List CL) (p : CL × Nat)
    (hp : p ∈ careerScores [([] : CL)] [] titles) : 2 ≤ p.2 := by
  simp only [careerScores, List.mem_map] at hp
  obtain ⟨t, ht, rfl⟩ := hp
  show 2 ≤ scoreOf [([] : CL)] [] t
  rw [scoreOf_eq]
  simp [isSub_nil]

/-- Witness for C6 at titles ["a"]: the single table entry scores 2. -/
theorem empty_skill_scores_two_witness : 2 ≤ ((toCL "a", 2) : CL × Nat).2 :=
  empty_skill_scores_two [toCL "a"] (toCL "a", 2) (by decide)

-- ---------------------------------------------------------------------
-- dataset model: loader (lines 33-35) and aggregation (lines 104-110)
-- ---------------------------------------------------------------------

/-- One row of the salary dataframe after loading (lines 33-35).  Salaries
are modelled as rationals. -/
structure JobRecord where
  job_title : CL
  salary_in_usd : ℚ
  salary_lpa : ℚ
deriving DecidableEq

/-- Embedding of line 34: salary_lpa is salary_in_usd times 83 over
100000, a total function of the input number. -/
def salaryLpa (usd : ℚ) : ℚ := usd * 83 / 100000

/-- Embedding of Python str.strip (line 35): drop whitespace from both
ends. -/
def stripCL (s : CL) : CL :=
  ((s.dropWhile Char.isWhitespace).reverse.dropWhile Char.isWhitespace).reverse

/-- Loading one row (lines 33-35): strip the title and derive the local
salary column. -/
def loadRecord (title : CL) (usd : ℚ) : JobRecord :=
  { job_title := stripCL title, salary_in_usd := usd, salary_lpa := salaryLpa usd }

/-- Embedding of line 104: select the rows whose job_title equals the
given title exactly. -/
def careerData (df : List JobRecord) (title : CL) : List JobRecord :=
  df.filter (fun r => r.job_title == title)

/-- Pandas mean of a column: NaN (modelled none) on an empty selection,
otherwise the sum divided by the length. -/
def colMean (l : List ℚ) : Option ℚ :=
  match l with
  | [] => none
  | _ :: _ => some (l.sum / (l.length : ℚ))

/-- Pandas min of a column: NaN (modelled none) on an empty selection. -/
def colMin (l : List ℚ) : Option ℚ :=
  match l with
  | [] => none
  | x :: xs => some (xs.foldl min x)

/-- Pandas max of a column: NaN (modelled none) on an empty selection. -/
def colMax (l : List ℚ) : Option ℚ :=
  match l with
  | [] => none
  | x :: xs => some (xs.foldl max x)

/-- Round to the nearest integer, ties to the even integer: the behaviour
of Python round and of the numpy rounding used by pandas. -/
def roundHalfEven (x : ℚ) : ℤ :=
  let f := Int.floor x
  let r := x - (f : ℚ)
  if r < 1 / 2 then f
  else if 1 / 2 < r then f + 1
  else if f % 2 = 0 then f else f + 1

/-- Embedding of round(x, 2) on the rational model. -/
def round2 (x : ℚ) : ℚ := ((roundHalfEven (x * 100) : ℤ) : ℚ) / 100

/-- Embedding of line 106: the rounded mean of the filtered salary
column; none encodes the NaN obtained on an empty selection. -/
def avgSalary (df : List JobRecord) (title : CL) : Option ℚ :=
  (colMean ((careerData df title).map JobRecord.salary_lpa)).map round2

/-- Embedding of line 107. -/
def minSalary (df : List JobRecord) (title : CL) : Option ℚ :=
  (colMin ((careerData df title).map JobRecord.salary_lpa)).map round2

/-- Embedding of line 108. -/
def maxSalary (df : List JobRecord) (title : CL) : Option ℚ :=
  (colMax ((careerData df title).map JobRecord.salary_lpa)).map round2

/-- Embedding of line 110, value_counts()[title]: the number of rows with
that exact title; the lookup raises KeyError (modelled none) when the
title appears in no row. -/
def demandCount (df : List JobRecord) (title : CL) : Option Nat :=
  let c := df.countP (fun r => r.job_title == title)
  if c = 0 then none else some c

/-- The four statistics the analysis page derives for one title. -/
def aggregateStats (df : List JobRecord) (title : CL) :
    Option ℚ × Option ℚ × Option ℚ × Option Nat :=
  (avgSalary df title, minSalary df title, maxSalary df title, demandCount df title)

/-- Embedding of lines 170-178: the comparison page aggregates each of the
two selected titles independently. -/
def compareCareers (df : List JobRecord) (c1 c2 : CL) : Option ℚ × Option ℚ :=
  (avgSalary df c1, avgSalary df c2)

/-- Embedding of pandas unique() (line 85): first occurrence of every
title, in order of appearance; seen accumulates titles already emitted. -/
def pdUniqueAux (seen : List CL) : List CL → List CL
  | [] => []
  | a :: l => if a ∈ seen then pdUniqueAux seen l else a :: pdUniqueAux (a :: seen) l

/-- The distinct job titles of the dataframe, in order of appearance. -/
def pdUnique (l : List CL) : List CL := pdUniqueAux [] l

/-- The distinct-title list the scoring loop iterates over (line 85). -/
def uniqueTitles (df : List JobRecord) : List CL := pdUnique (df.map JobRecord.job_title)

-- ---------------------------------------------------------------------
-- the Career Analysis flow (lines 22-28 and 71-131)
-- ---------------------------------------------------------------------

/-- What one run of the Career Analysis page produces; crash records an
uncaught Python exception ending the script run. -/
structure AnalysisOutcome where
  noticeShown : Bool
  recommendation : Option CL
  avg : Option ℚ
  lo : Option ℚ
  hi : Option ℚ
  freq : Option Nat
  chartShown : Bool
  explanationShown : Bool
  crash : Bool
deriving DecidableEq

/-- Embedding of the script run for the Career Analysis page.  Lines
22-28: when the key is absent the model handle is never bound and an
error notice is shown.  Lines 85-118: scoring, recommendation, statistics
and chart are computed and rendered in order.  Line 128 then evaluates
model dot generate_content unconditionally: when the key is absent the
name model is unbound, so the run dies with a NameError after the chart
(crash is also set on an empty dataset, where line 100 raises IndexError
before anything is rendered). -/
def analysisFlow (keyConfigured : Bool) (df : List JobRecord)
    (skills interests : List CL) : AnalysisOutcome :=
  match topCareer skills interests (uniqueTitles df) with
  | none =>
      { noticeShown := !keyConfigured, recommendation := none, avg := none,
        lo := none, hi := none, freq := none, chartShown := false,
        explanationShown := false, crash := true }
  | some t =>
      { noticeShown := !keyConfigured,
        recommendation := some t,
        avg := avgSalary df t,
        lo := minSalary df t,
        hi := maxSalary df t,
        freq := demandCount df t,
        chartShown := true,
        explanationShown := keyConfigured,
        crash := !keyConfigured }

/-- A one-row dataset used for concrete evaluations. -/
def dfExample : List JobRecord := [loadRecord (toCL "Data Scientist") 100]

-- ---------------------------------------------------------------------
-- theorems about the loader and the aggregation
-- ---------------------------------------------------------------------

/-- Claim C9: the derived local salary of every loaded record equals
salary_in_usd times 83 divided by 100000; the derivation is a total pure
function of the numeric input, and the multiplicative form shows the
division is exact on the rational model. -/
theorem salary_conversion (title : CL) (usd : ℚ) :
    (loadRecord title usd).salary_lpa = usd * 83 / 100000
      ∧ (loadRecord title usd).salary_lpa * 100000 = usd * 83 := by
  constructor
  · rfl
  · show usd * 83 / 100000 * 100000 = usd * 83
    rw [div_mul_cancel₀]
    norm_num

/-- Counterexample to claim C3 as stated: aggregating the absent title
"QA" over the example dataset silently produces the NaN marker (none) for
mean, min and max, and the count lookup fails; no InvalidTitle error
value exists anywhere in the code. -/
theorem absent_title_counterexample :
    avgSalary dfExample (toCL "QA") = none
      ∧ minSalary dfExample (toCL "QA") = none
      ∧ maxSalary dfExample (toCL "QA") = none
      ∧ demandCount dfExample (toCL "QA") = none := by
  decide

/-- Claim C3 amended: for a title carried by no record, mean, min and max
silently evaluate to NaN (none) and the count lookup fails with a
KeyError (none); no explicit InvalidTitle error is raised. -/
theorem absent_title_nan (df : List JobRecord) (title : CL)
    (h : ∀ r ∈ df, ¬ r.job_title = title) :
    avgSalary df title = none ∧ minSalary df title = none
      ∧ maxSalary df title = none ∧ demandCount df title = none := by
  have hcd : careerData df title = [] := by
    simp only [careerData, List.filter_eq_nil_iff]
    intro r hr
    simpa using h r hr
  have hc : df.countP (fun r => r.job_title == title) = 0 := by
    rw [List.countP_eq_zero]
    intro r hr
    simpa using h r hr
  refine ⟨?_, ?_, ?_, ?_⟩ <;>
    simp [avgSalary, minSalary, maxSalary, demandCount, hcd, hc,
      colMean, colMin, colMax]

/-- Witness for the amended C3 at the example dataset and title "ML". -/
theorem absent_title_nan_witness :
    avgSalary dfExample (toCL "ML") = none
      ∧ minSalary dfExample (toCL "ML") = none
      ∧ maxSalary dfExample (toCL "ML") = none
      ∧ demandCount dfExample (toCL "ML") = none :=
  absent_title_nan dfExample (toCL "ML") (by decide)

/-- Claim C7: aggregation keeps exactly the records whose title equals the
requested one, the count is the number of kept records, the mean is the
rounded arithmetic mean of the kept salary column, and for a single kept
record the rounded mean, min and max all equal the salary of that record
rounded to 2 decimals. -/
theorem aggregate_exact_stats (df : List JobRecord) (title : CL)
    (h : careerData df title ≠ []) :
    (∀ x, x ∈ careerData df title ↔ x ∈ df ∧ x.job_title = title)
      ∧ demandCount df title = some (careerData df title).length
      ∧ avgSalary df title
          = some (round2 (((careerData df title).map JobRecord.salary_lpa).sum
              / ((careerData df title).length : ℚ)))
      ∧ (∀ r, careerData df title = [r] →
          avgSalary df title = some (round2 r.salary_lpa)
            ∧ minSalary df title = some (round2 r.salary_lpa)
            ∧ maxSalary df title = some (round2 r.salary_lpa)
            ∧ demandCount df title = some 1) := by
  refine ⟨?_, ?_, ?_, ?_⟩
  · intro x
    simp [careerData, List.mem_filter]
  · have h0 : (careerData df title).length ≠ 0 :=
      fun hz => h (List.length_eq_zero.mp hz)
    simp only [demandCount, List.countP_eq_length_filter]
    rw [if_neg]
    · rfl
    · exact h0
  · obtain ⟨y, ys, hys⟩ : ∃ y ys, careerData df title = y :: ys := by
      cases hcd : careerData df title with
      | nil => exact absurd hcd h
      | cons y ys => exact ⟨y, ys, rfl⟩
    rw [avgSalary, hys]
    simp [colMean, List.length_map]
  · intro r hr
    have hcount : df.countP (fun x => x.job_title == title) = 1 := by
      rw [List.countP_eq_length_filter]
      show (careerData df title).length = 1
      rw [hr]
      rfl
    refine ⟨?_, ?_, ?_, ?_⟩
    · simp [avgSalary, hr, colMean]
    · simp [minSalary, hr, colMin]
    · simp [maxSalary, hr, colMax]
    · simp [demandCount, hcount]

/-- Witness for C7 at the example dataset and its only title. -/
theorem aggregate_exact_stats_witness :
    (∀ x, x ∈ careerData dfExample (toCL "Data Scientist")
        ↔ x ∈ dfExample ∧ x.job_title = toCL "Data Scientist")
      ∧ demandCount dfExample (toCL "Data Scientist")
          = some (careerData dfExample (toCL "Data Scientist")).length
      ∧ avgSalary dfExample (toCL "Data Scientist")
          = some (round2
              (((careerData dfExample (toCL "Data Scientist")).map JobRecord.salary_lpa).sum
                / ((careerData dfExample (toCL "Data Scientist")).length : ℚ)))
      ∧ (∀ r, careerData dfExample (toCL "Data Scientist") = [r] →
          avgSalary dfExample (toCL "Data Scientist") = some (round2 r.salary_lpa)
            ∧ minSalary dfExample (toCL "Data Scientist") = some (round2 r.salary_lpa)
            ∧ maxSalary dfExample (toCL "Data Scientist") = some (round2 r.salary_lpa)
            ∧ demandCount dfExample (toCL "Data Scientist") = some 1) :=
  aggregate_exact_stats dfExample (toCL "Data Scientist") (by decide)

/-- Claim C8: aggregation over an unchanged dataset is deterministic and
idempotent, and comparing a title with itself yields equal statistics on
both sides of the comparison pair. -/
theorem aggregate_idempotent (df : List JobRecord) (t : CL) :
    aggregateStats df t = aggregateStats df t
      ∧ (compareCareers df t t).1 = (compareCareers df t t).2 :=
  ⟨rfl, rfl⟩

-- ---------------------------------------------------------------------
-- totality of the recommendation step and the missing-key flow
-- ---------------------------------------------------------------------

lemma topCareer_isSome (skills interests titles : List CL) :
    (topCareer skills interests titles).isSome = true ↔ titles ≠ [] := by
  cases titles with
  | nil => simp [topCareer, careerScores, sortDesc]
  | cons t ts =>
      constructor
      · intro _
        exact List.cons_ne_nil t ts
      · intro _
        show (Option.map Prod.fst
          (sortDesc (careerScores skills interests (t :: ts))).head?).isSome = true
        rw [show sortDesc (careerScores skills interests (t :: ts))
            = ordIns (t, scoreOf skills interests t)
                (sortDesc (careerScores skills interests ts)) from rfl]
        rw [head_ordIns]
        rfl

/-- Claim C10: the recommendation step succeeds exactly on non-empty
datasets: with at least one record the indexing of the sorted score list
produces some title, and on an empty dataset it has no defined result. -/
theorem recommendation_total (skills interests : List CL) (df : List JobRecord) :
    (topCareer skills interests (uniqueTitles df)).isSome = true ↔ df ≠ [] := by
  rw [topCareer_isSome]
  cases df with
  | nil => simp [uniqueTitles, pdUnique, pdUniqueAux]
  | cons r rs => simp [uniqueTitles, pdUnique, pdUniqueAux]

/-- Claim C4 evaluated at its failing input (code bug): with the API key
absent, the analysis run shows the not-configured notice and completes
scoring, statistics and the chart, but then crashes at the explanation
step because the model name was never bound (NameError at line 128) —
the missing credential IS fatal to the rest of the analysis run,
contrary to the claim. -/
theorem missing_key_outcome :
    (analysisFlow false dfExample [toCL "data"] []).noticeShown = true
      ∧ (analysisFlow false dfExample [toCL "data"] []).recommendation
          = some (toCL "Data Scientist")
      ∧ (analysisFlow false dfExample [toCL "data"] []).chartShown = true
      ∧ (analysisFlow false dfExample [toCL "data"] []).explanationShown = false
      ∧ (analysisFlow false dfExample [toCL "data"] []).crash = true := by
  decide

end CareerSense
